import Mathlib

/-!
Shallow embedding of the XPT2046 resistive-touch driver (xpt2046.c) from the
ST7789-STM32 repository, together with theorems settling the specification
claims about its filtering/calibration pipeline.

Machine integers are modelled as unbounded Int with explicit wrapping
(`toInt16`) exactly where the C code narrows a wider value into an
`int16_t` variable.  Compile-time configuration is the one fixed by the
shipped header xpt2046.h:
  XPT2046_X_MIN 160, XPT2046_Y_MIN 215, XPT2046_X_MAX 3870, XPT2046_Y_MAX 3910,
  XPT2046_X_INV 0, XPT2046_Y_INV 0, XPT2046_XY_SWAP 0,
  XPT2046_TOUCH_THRESHOLD 500, XPT2046_READ_SAMPLES 7, XPT2046_AVG_SAMPLES 10,
  XPT2046_JUMP_THRESHOLD 80, XPT2046_MAX_INVALID_SAMPLES 3,
  no IRQ pin configured, screen 240x320 (ST7789_WIDTH/HEIGHT).
The SPI transport is modelled as an oracle (`TouchEnv`) supplying the
`int16_t` values returned by XPT2046_SendCommand for each exchange of one
read cycle.
-/

namespace XPT2046

/-- Conversion of an unbounded integer into the value an `int16_t` variable
receives on assignment (two's-complement wrap-around, the behaviour of the
gcc/ARM target). -/
def toInt16 (n : Int) : Int := (n + 32768) % 65536 - 32768

/-- Conversion to `uint32_t` (reduction modulo 2 to the 32). -/
def toUInt32 (n : Int) : Int := n % 4294967296

/-- Arithmetic right shift by three bits, as gcc performs `>> 3` on a
(possibly negative) `int16_t` promoted to int: floor division by 8.
The driver uses it to decode a 12-bit conversion from a 16-bit frame. -/
def shr3 (n : Int) : Int := Int.fdiv n 8

/-- CalibrationProfile: raw-unit bounds of the affine map
(the `calibration` static struct, fields `int16_t`). -/
structure Calibration where
  x_min : Int
  y_min : Int
  x_max : Int
  y_max : Int
  deriving DecidableEq, Repr

/-- Persistent driver state: the static variables of xpt2046.c.
`avg_buf_x`/`avg_buf_y` always hold XPT2046_AVG_SAMPLES = 10 entries. -/
structure TouchState where
  avg_buf_x : List Int
  avg_buf_y : List Int
  avg_count : Nat
  calibration : Calibration
  screen_width : Int
  screen_height : Int
  last_valid_x : Int
  last_valid_y : Int
  invalid_count : Nat
  deriving DecidableEq, Repr

/-- Transport oracle for one read cycle: the `int16_t` values returned by
XPT2046_SendCommand for the Z1 and Z2 pressure exchanges and for the i-th
X and Y sample exchanges. -/
structure TouchEnv where
  z1 : Int
  z2 : Int
  xs : Nat → Int
  ys : Nat → Int

/-- Static initial values of the module variables: zeroed averaging buffers,
default calibration from xpt2046.h, screen 240x320, no reference point. -/
def defaultState : TouchState :=
  { avg_buf_x := List.replicate 10 0
    avg_buf_y := List.replicate 10 0
    avg_count := 0
    calibration := { x_min := 160, y_min := 215, x_max := 3870, y_max := 3910 }
    screen_width := 240
    screen_height := 320
    last_valid_x := -1
    last_valid_y := -1
    invalid_count := 0 }

/-- XPT2046_Init: clears the averaging buffers and the touch state, leaving
the calibration profile and screen size untouched. -/
def XPT2046_Init (s : TouchState) : TouchState :=
  { s with
    avg_buf_x := List.replicate 10 0
    avg_buf_y := List.replicate 10 0
    avg_count := 0
    last_valid_x := -1
    last_valid_y := -1
    invalid_count := 0 }

/-- XPT2046_IsPressed (no IRQ pin configured, so the IRQ fast path is
compiled out): decode the two pressure plates, reject if the first is
below 50, otherwise touched iff the difference exceeds
XPT2046_TOUCH_THRESHOLD = 500. -/
def XPT2046_IsPressed (env : TouchEnv) : Bool :=
  let z1 := shr3 (toInt16 env.z1)
  let z2 := shr3 (toInt16 env.z2)
  if z1 < 50 then false
  else decide (z2 - z1 > 500)

/-- XPT2046_Calibrate: unconditional store of the four bounds into the
calibration profile (the C function performs no validation). -/
def XPT2046_Calibrate (s : TouchState)
    (x_min y_min x_max y_max : Int) : TouchState :=
  { s with calibration :=
      { x_min := x_min, y_min := y_min, x_max := x_max, y_max := y_max } }

/-- XPT2046_SetScreenSize. -/
def XPT2046_SetScreenSize (s : TouchState) (width height : Int) : TouchState :=
  { s with screen_width := width, screen_height := height }

/-- One bounded bubble pass: up to `n` adjacent compare-and-swap steps from
the left, mirroring the inner `j` loop of `median_filter` whose bound is
`size - i - 1` comparisons. -/
def bubble_pass : Nat → List Int → List Int
  | 0, l => l
  | _ + 1, [] => []
  | _ + 1, [a] => [a]
  | n + 1, a :: b :: rest =>
    if a > b then b :: bubble_pass n (a :: rest)
    else a :: bubble_pass n (b :: rest)

/-- Outer bubble-sort loop: passes with shrinking comparison counts
n, n-1, ..., 1, mirroring the `i` loop of `median_filter`. -/
def bubble_go : Nat → List Int → List Int
  | 0, l => l
  | n + 1, l => bubble_go n (bubble_pass (n + 1) l)

/-- Bubble sort of a copy, exactly the nested loops of `median_filter`
(for a list of length `size` the outer loop performs `size - 1` passes,
the i-th with `size - i - 1` comparisons). -/
def bubble_sort (l : List Int) : List Int := bubble_go (l.length - 1) l

/-- median_filter: sort a copy ascending, return `temp[size / 2]`. -/
def median_filter (l : List Int) : Int := (bubble_sort l).getD (l.length / 2) 0

/-- Decoded sample batch for one axis: XPT2046_READ_SAMPLES = 7 exchanges,
each response decoded by `>> 3`. -/
def sampleBatch (f : Nat → Int) : List Int :=
  (List.range 7).map fun i => shr3 (toInt16 (f i))

/-- XPT2046_ReadFiltered: median of each 7-sample axis batch, then the
variance gate.  The per-sample deviation is an `int16_t` (always in range
for decoded 12-bit samples), the squared deviations accumulate in an
`int32_t`, and the quotient by 7 is narrowed into the `int16_t` variables
`std_dev_x`/`std_dev_y` — hence the `toInt16` wrap.  Returns the gate
verdict together with the two medians written through the out pointers. -/
def XPT2046_ReadFiltered (env : TouchEnv) : Bool × Int × Int :=
  let x_samples := sampleBatch env.xs
  let y_samples := sampleBatch env.ys
  let mx := median_filter x_samples
  let my := median_filter y_samples
  let sum_diff_x := (x_samples.map fun v => toInt16 (v - mx) * toInt16 (v - mx)).sum
  let sum_diff_y := (y_samples.map fun v => toInt16 (v - my) * toInt16 (v - my)).sum
  let std_dev_x := toInt16 (Int.tdiv sum_diff_x 7)
  let std_dev_y := toInt16 (Int.tdiv sum_diff_y 7)
  if std_dev_x > 10000 ∨ std_dev_y > 10000 then (false, mx, my)
  else (true, mx, my)

/-- One axis of XPT2046_ApplyCalibration (the C body performs the identical
step sequence on `*x` and on `*y`, interleaved): clamp into [mn, mx],
subtract the minimum (an `int16_t` store), scale by
`screen_dimension / raw_range` in `uint32_t` arithmetic, narrow the result
back into `int16_t`, and clamp into the pixel range (the comparison against
the dimension happens after the C cast `(int16_t)screen_width`).
When `mx = mn` the C division is undefined behaviour; the model yields 0
there (never evaluated by any theorem below). -/
def calibrateAxis (mn mx dim v : Int) : Int :=
  let v1 := if v < mn then mn else v
  let v2 := if v1 > mx then mx else v1
  let v3 := toInt16 (v2 - mn)
  let v4 := toInt16 (toUInt32 (toUInt32 v3 * dim) / toUInt32 (mx - mn))
  let v5 := if v4 < 0 then 0 else v4
  if v5 ≥ toInt16 dim then toInt16 (dim - 1) else v5

/-- XPT2046_ApplyCalibration with the shipped configuration
(XPT2046_XY_SWAP = 0, XPT2046_X_INV = 0, XPT2046_Y_INV = 0, so the swap and
invert blocks are compiled out): the clamp/translate/scale/clamp pipeline
applied to each axis. -/
def XPT2046_ApplyCalibration (cal : Calibration) (width height : Int)
    (x y : Int) : Int × Int :=
  (calibrateAxis cal.x_min cal.x_max width x,
   calibrateAxis cal.y_min cal.y_max height y)

/-- XPT2046_Average: shift the 10-entry buffers down, insert the new point
at index 0, bump the fill count up to capacity, and return the truncating
mean over the filled prefix. -/
def XPT2046_Average (s : TouchState) (x y : Int) : TouchState × Int × Int :=
  let bufx := x :: s.avg_buf_x.take 9
  let bufy := y :: s.avg_buf_y.take 9
  let cnt := if s.avg_count < 10 then s.avg_count + 1 else s.avg_count
  let sum_x := (bufx.take cnt).sum
  let sum_y := (bufy.take cnt).sum
  ({ s with avg_buf_x := bufx, avg_buf_y := bufy, avg_count := cnt },
   Int.tdiv sum_x cnt, Int.tdiv sum_y cnt)

/-- XPT2046_Read: the full read pass.  Takes the current values of the
caller coordinate variables `xy` and returns (new state, return flag, final
caller coordinate values) — the C function writes through the pointers only
on the success path.  `invalid_count` is a `uint8_t`, hence the mod-256
increments. -/
def XPT2046_Read (s : TouchState) (env : TouchEnv) (xy : Int × Int) :
    TouchState × Bool × (Int × Int) :=
  if XPT2046_IsPressed env = false then
    ({ s with
        avg_count := 0
        avg_buf_x := List.replicate 10 0
        avg_buf_y := List.replicate 10 0
        last_valid_x := -1
        last_valid_y := -1
        invalid_count := 0 }, false, xy)
  else
    let fr := XPT2046_ReadFiltered env
    if fr.1 = false then
      let ic := (s.invalid_count + 1) % 256
      if ic ≥ 3 then
        ({ s with invalid_count := ic, avg_count := 0,
                  last_valid_x := -1, last_valid_y := -1 }, false, xy)
      else
        ({ s with invalid_count := ic }, false, xy)
    else
      let c := XPT2046_ApplyCalibration s.calibration s.screen_width
                 s.screen_height fr.2.1 fr.2.2
      let step :=
        if 0 ≤ s.last_valid_x ∧ 0 ≤ s.last_valid_y then
          let dx := c.1 - s.last_valid_x
          let dy := c.2 - s.last_valid_y
          let distance_sq := dx * dx + dy * dy
          if distance_sq > 80 * 80 then
            let ic := (s.invalid_count + 1) % 256
            if ic ≥ 3 then
              (some { s with
                        avg_count := 0
                        avg_buf_x := List.replicate 10 0
                        avg_buf_y := List.replicate 10 0
                        invalid_count := 0 })
            else
              none
          else
            some { s with invalid_count := 0 }
        else
          some s
      match step with
      | none => ({ s with invalid_count := (s.invalid_count + 1) % 256 }, false, xy)
      | some s1 =>
        let av := XPT2046_Average s1 c.1 c.2
        ({ av.1 with last_valid_x := av.2.1, last_valid_y := av.2.2 },
         true, (av.2.1, av.2.2))

/-- XPT2046_IsTouched: the pressure gate alone. -/
def XPT2046_IsTouched (env : TouchEnv) : Bool := XPT2046_IsPressed env

/-- Population variance stated from the spec words: mean (divide by n) of
the squared deviations of a batch around a given centre, in exact integer
arithmetic.  Used to compare the variance-gate code against the spec. -/
def specPopulationVariance (l : List Int) (med : Int) : Int :=
  Int.tdiv ((l.map fun v => (v - med) * (v - med)).sum) l.length

/-! Concrete transport oracles and trace states used by the witnesses and
counterexamples.  Frames are the decoded value times 8, so that the `>> 3`
decode recovers them: plates (100, 700) are frames (800, 5600). -/

/-- Touch present (plates 100, 700), every sample decoding to raw (160, 215),
which the default profile maps to the pixel (0, 0). -/
def envOrigin : TouchEnv := ⟨800, 5600, fun _ => 1280, fun _ => 1720⟩

/-- Touch present, every sample decoding to raw (1706, 1370), which the
default profile maps to the pixel (100, 100). -/
def envNear : TouchEnv := ⟨800, 5600, fun _ => 13648, fun _ => 10960⟩

/-- Touch present, every sample decoding to raw (3252, 2525), which the
default profile maps to the pixel (200, 200) — squared distance 20000 from
(100, 100), far beyond the jump threshold. -/
def envFar : TouchEnv := ⟨800, 5600, fun _ => 26016, fun _ => 20200⟩

/-- Touch present, X batch decoding to [0,0,0,0,200,200,200]: population
variance around the median 0 is 120000 / 7 = 17142, rejected by the
variance gate (no `int16_t` wrap occurs). -/
def envNoise : TouchEnv := ⟨800, 5600, fun i => if i < 4 then 0 else 1600, fun _ => 0⟩

/-- Touch present, X batch decoding to [0,0,0,0,3000,3000,3000]: population
variance around the median 0 is 27000000 / 7 = 3857142, which the `int16_t`
narrowing wraps to -9482, so the gate accepts the batch. -/
def envWrap : TouchEnv := ⟨800, 5600, fun i => if i < 4 then 0 else 24000, fun _ => 0⟩

/-- Plates (100, 150): the first plate passes the minimum but the difference
50 is below the threshold 500, so no touch is reported. -/
def envNoTouch : TouchEnv := ⟨800, 1200, fun _ => 0, fun _ => 0⟩

/-- Plates (20, 500): the first plate is below the 50 raw-unit minimum, so
the gate rejects without looking at the difference. -/
def envLowZ1 : TouchEnv := ⟨160, 4000, fun _ => 0, fun _ => 0⟩

/-- Touch present, samples decoding to raw (2943, 1370), mapped to the pixel
(180, 100): squared distance from (100, 100) exactly 6400 = 80 * 80. -/
def envDist6400 : TouchEnv := ⟨800, 5600, fun _ => 23544, fun _ => 10960⟩

/-- Touch present, samples decoding to raw (2943, 1382), mapped to the pixel
(180, 101): squared distance from (100, 100) exactly 6401 = 80 * 80 + 1. -/
def envDist6401 : TouchEnv := ⟨800, 5600, fun _ => 23544, fun _ => 11056⟩

/-- Tracking state with reference point (100, 100) and a one-entry smoothing
history, as produced by one accepted sample at (100, 100). -/
def sTracking : TouchState :=
  { defaultState with
      last_valid_x := 100
      last_valid_y := 100
      avg_count := 1
      avg_buf_x := 100 :: List.replicate 9 0
      avg_buf_y := 100 :: List.replicate 9 0 }

/-- Trace for the jump-ceiling behaviour: one accepted sample at (100, 100)
from the freshly initialized state. -/
def sJump1 : TouchState := (XPT2046_Read (XPT2046_Init defaultState) envNear (0, 0)).1

/-- After one jump rejection at (200, 200): invalid_count 1. -/
def sJump2 : TouchState := (XPT2046_Read sJump1 envFar (0, 0)).1

/-- After a second jump rejection at (200, 200): invalid_count 2. -/
def sJump3 : TouchState := (XPT2046_Read sJump2 envFar (0, 0)).1

/-- Trace of consecutive variance-gate failures from the freshly
initialized state. -/
def sNoise1 : TouchState := (XPT2046_Read (XPT2046_Init defaultState) envNoise (0, 0)).1

/-- Second consecutive variance-gate failure. -/
def sNoise2 : TouchState := (XPT2046_Read sNoise1 envNoise (0, 0)).1

/-- Third consecutive variance-gate failure: the ceiling is reached. -/
def sNoise3 : TouchState := (XPT2046_Read sNoise2 envNoise (0, 0)).1

/-- Fourth consecutive variance-gate failure. -/
def sNoise4 : TouchState := (XPT2046_Read sNoise3 envNoise (0, 0)).1

/-! Correctness of the bubble sort inside `median_filter`. -/

theorem bubble_pass_perm (n : Nat) (l : List Int) : (bubble_pass n l).Perm l := by
  induction n generalizing l with
  | zero => simp [bubble_pass]
  | succ n ih =>
    match l with
    | [] => simp [bubble_pass]
    | [a] => simp [bubble_pass]
    | a :: b :: rest =>
      simp only [bubble_pass]
      split
      · exact ((ih (a :: rest)).cons b).trans (List.Perm.swap a b rest)
      · exact (ih (b :: rest)).cons a

theorem bubble_go_perm (n : Nat) (l : List Int) : (bubble_go n l).Perm l := by
  induction n generalizing l with
  | zero => simp [bubble_go]
  | succ n ih => exact (ih _).trans (bubble_pass_perm (n + 1) l)

theorem bubble_sort_perm (l : List Int) : (bubble_sort l).Perm l :=
  bubble_go_perm (l.length - 1) l

theorem bubble_pass_full (l : List Int) (a : Int) :
    ∃ u m, bubble_pass l.length (a :: l) = u ++ [m] ∧ ∀ x ∈ a :: l, x ≤ m := by
  induction l generalizing a with
  | nil => exact ⟨[], a, rfl, by simp⟩
  | cons b t ih =>
    simp only [List.length_cons, bubble_pass]
    by_cases hab : a > b
    · obtain ⟨u, m, hu, hm⟩ := ih a
      rw [if_pos hab, hu]
      refine ⟨b :: u, m, by simp, ?_⟩
      intro x hx
      rcases List.mem_cons.mp hx with rfl | hx2
      · exact hm x (List.mem_cons_self x t)
      · rcases List.mem_cons.mp hx2 with rfl | hx3
        · exact le_of_lt (lt_of_lt_of_le hab (hm a (List.mem_cons_self a t)))
        · exact hm x (List.mem_cons_of_mem a hx3)
    · obtain ⟨u, m, hu, hm⟩ := ih b
      rw [if_neg hab, hu]
      refine ⟨a :: u, m, by simp, ?_⟩
      intro x hx
      rcases List.mem_cons.mp hx with rfl | hx2
      · exact le_trans (not_lt.mp hab) (hm b (List.mem_cons_self b t))
      · exact hm x hx2

theorem bubble_pass_append (n : Nat) (l1 l2 : List Int) (h : l1.length = n + 1) :
    bubble_pass n (l1 ++ l2) = bubble_pass n l1 ++ l2 := by
  induction n generalizing l1 with
  | zero => simp [bubble_pass]
  | succ n ih =>
    match l1 with
    | [a] => simp at h
    | a :: b :: t =>
      have ht : (a :: t).length = n + 1 := by simp at h ⊢; omega
      have ht2 : (b :: t).length = n + 1 := by simp at h ⊢; omega
      rw [List.cons_append, List.cons_append]
      simp only [bubble_pass]
      by_cases hab : a > b
      · have hih := ih (a :: t) ht
        rw [List.cons_append] at hih
        rw [if_pos hab, if_pos hab, List.cons_append, hih]
      · have hih := ih (b :: t) ht2
        rw [List.cons_append] at hih
        rw [if_neg hab, if_neg hab, List.cons_append, hih]

theorem bubble_go_sorted (n : Nat) (l1 l2 : List Int)
    (hlen : l1.length = n + 1) (hsort : l2.Sorted (· ≤ ·))
    (hle : ∀ x ∈ l1, ∀ y ∈ l2, x ≤ y) :
    (bubble_go n (l1 ++ l2)).Sorted (· ≤ ·) := by
  induction n generalizing l1 l2 with
  | zero =>
    match l1 with
    | [a] =>
      simp only [bubble_go, List.cons_append, List.nil_append]
      exact List.sorted_cons.mpr ⟨fun y hy => hle a (by simp) y hy, hsort⟩
  | succ n ih =>
    match l1 with
    | a :: c :: t =>
      have ht : (a :: c :: t).length = n + 2 := hlen
      simp only [bubble_go]
      rw [bubble_pass_append (n + 1) (a :: c :: t) l2 ht]
      have hfuel : n + 1 = (c :: t).length := by
        simp only [List.length_cons] at ht ⊢
        omega
      obtain ⟨u, m, hu, hm⟩ := bubble_pass_full (c :: t) a
      rw [hfuel, hu]
      have hperm : (u ++ [m]).Perm (a :: c :: t) := by
        have hp := bubble_pass_perm (n + 1) (a :: c :: t)
        rw [hfuel] at hp
        rw [hu] at hp
        exact hp
      have hulen : u.length = n + 1 := by
        have h1 := hperm.length_eq
        simp only [List.length_append, List.length_cons, List.length_nil] at h1 ht
        omega
      have hmem : ∀ x ∈ u, x ∈ a :: c :: t := by
        intro x hx
        exact hperm.mem_iff.mp (List.mem_append_left [m] hx)
      have hmmem : m ∈ a :: c :: t :=
        hperm.mem_iff.mp (List.mem_append_right u (by simp))
      have hassoc : u ++ [m] ++ l2 = u ++ (m :: l2) := by simp
      rw [hassoc]
      refine ih u (m :: l2) hulen ?_ ?_
      · exact List.sorted_cons.mpr ⟨fun y hy => hle m hmmem y hy, hsort⟩
      · intro x hx y hy
        rcases List.mem_cons.mp hy with rfl | hy2
        · exact hm x (hmem x hx)
        · exact hle x (hmem x hx) y hy2

theorem bubble_sort_sorted (l : List Int) : (bubble_sort l).Sorted (· ≤ ·) := by
  match l with
  | [] => simp [bubble_sort, bubble_go, List.Sorted]
  | a :: t =>
    have h := bubble_go_sorted t.length (a :: t) [] (by simp) (by simp) (by simp)
    simpa [bubble_sort] using h

theorem bubble_sort_eq_sorted (l s : List Int) (hs : s.Sorted (· ≤ ·))
    (hp : l.Perm s) : bubble_sort l = s :=
  List.eq_of_perm_of_sorted ((bubble_sort_perm l).trans hp) (bubble_sort_sorted l) hs

/-! Theorems settling the claims. -/

/-- C3 (amended): for every non-empty array, `median_filter` returns the
element at index `length / 2` of the ascending sort of a copy — the middle
element for odd length, but the UPPER middle for even length — and the
result is invariant to reordering of the input (the C code sorts a copy and
never mutates the input; the model is pure). -/
theorem median_filter_sorted_middle (l : List Int) (_hne : l ≠ [])
    (s : List Int) (hs : s.Sorted (· ≤ ·)) (hp : l.Perm s) :
    median_filter l = s.getD (l.length / 2) 0 ∧
    ∀ l2 : List Int, l2.Perm l → median_filter l2 = median_filter l := by
  have h1 : bubble_sort l = s := bubble_sort_eq_sorted l s hs hp
  constructor
  · simp [median_filter, h1]
  · intro l2 hl2
    have h2 : bubble_sort l2 = s := bubble_sort_eq_sorted l2 s hs (hl2.trans hp)
    have hlen : l2.length = l.length := hl2.length_eq
    simp [median_filter, h1, h2, hlen]

/-- Witness for the C3 theorem at the array [5, 1, 3] with ascending sort
[1, 3, 5]: the median is the middle element 3, and the reordering
[3, 5, 1] yields the same median. -/
theorem median_filter_sorted_middle_witness :
    median_filter [5, 1, 3] =
      ([1, 3, 5] : List Int).getD (([5, 1, 3] : List Int).length / 2) 0 ∧
    median_filter ([3, 5, 1] : List Int) = median_filter [5, 1, 3] := by
  have h := median_filter_sorted_middle [5, 1, 3] (by decide) [1, 3, 5]
    (by decide) (by decide)
  exact ⟨h.1, h.2 [3, 5, 1] (by decide)⟩

/-- C3 counterexample: on the even-length array [1, 2, 3, 4] the filter
returns temp[4 / 2] = 3, the UPPER middle of the sorted order, not the
lower middle 2 that the claim names as the tie-break. -/
theorem median_filter_even_tiebreak_upper :
    median_filter [1, 2, 3, 4] = 3 ∧ median_filter ([1, 2, 3, 4] : List Int) ≠ 2 := by
  decide

/-- C1 (code evaluated at the failing input): XPT2046_Calibrate performs no
validation.  Called with x_min = y_min = x_max = y_max = 100 it replaces the
stored profile with these violating bounds instead of rejecting the update,
leaving a profile with x_min = x_max that the mapper would divide by. -/
theorem calibrate_accepts_violating_bounds :
    (XPT2046_Calibrate defaultState 100 100 100 100).calibration =
      { x_min := 100, y_min := 100, x_max := 100, y_max := 100 } ∧
    ¬ ((XPT2046_Calibrate defaultState 100 100 100 100).calibration.x_min <
       (XPT2046_Calibrate defaultState 100 100 100 100).calibration.x_max) := by
  decide

/-- C6 (code evaluated at the failing input): with the X batch decoding to
[0, 0, 0, 0, 3000, 3000, 3000] the population variance around the median 0
is 27000000 / 7 = 3857142, far above the ceiling 10000, yet the variance
gate ACCEPTS the batch: the quotient is narrowed into the `int16_t`
variable std_dev_x, wrapping 3857142 to -9482. -/
theorem variance_gate_int16_wrap :
    (XPT2046_ReadFiltered envWrap).1 = true ∧
    specPopulationVariance (sampleBatch envWrap.xs)
      (median_filter (sampleBatch envWrap.xs)) = 3857142 ∧
    toInt16 3857142 = -9482 := by decide

/-- C8: end-to-end — freshly initialized state, default profile
{x_min 160, x_max 3870, y_min 215, y_max 3910}, screen 240x320, pressure
plates decoding to (100, 700) and every batch sample decoding to raw
(160, 215): XPT2046_Read succeeds and writes the point (0, 0) over the
caller variables. -/
theorem read_origin_end_to_end :
    (XPT2046_Read (XPT2046_Init defaultState) envOrigin (77, 88)).2 =
      (true, 0, 0) := by decide

/-- C2 counterexample: four consecutive variance-gate failures from the
freshly initialized state drive invalid_count to 4, silently beyond the
ceiling 3 — on the variance path the ceiling-triggered reset never clears
the counter itself. -/
theorem invalid_count_exceeds_ceiling :
    sNoise3.invalid_count = 3 ∧ sNoise4.invalid_count = 4 := by decide

/-- C2 (amended): while a reference point is stored, every successful read
resets invalid_count to 0; but on the variance-gate-failure path the
counter is incremented (mod 256, a uint8_t) WITHOUT being reset at the
ceiling — reaching the ceiling there only clears the reference point and
the smoothing count, so the counter can exceed the ceiling. -/
theorem invalid_count_policy (s : TouchState) (env : TouchEnv) (xy : Int × Int)
    (h1 : 0 ≤ s.last_valid_x) (h2 : 0 ≤ s.last_valid_y) :
    ((XPT2046_Read s env xy).2.1 = true →
      (XPT2046_Read s env xy).1.invalid_count = 0) ∧
    (XPT2046_IsPressed env = true → (XPT2046_ReadFiltered env).1 = false →
      (XPT2046_Read s env xy).1.invalid_count = (s.invalid_count + 1) % 256 ∧
      (3 ≤ (s.invalid_count + 1) % 256 →
        (XPT2046_Read s env xy).1.last_valid_x = -1 ∧
        (XPT2046_Read s env xy).1.avg_count = 0)) := by
  constructor
  · simp only [XPT2046_Read]
    split
    · intro htrue
      simp at htrue
    · split
      · split
        · intro htrue; simp at htrue
        · intro htrue; simp at htrue
      · split
        · intro htrue; simp at htrue
        · rename_i s1 heq
          intro _
          rw [if_pos ⟨h1, h2⟩] at heq
          split at heq
          · split at heq
            · injection heq with heq1
              subst heq1
              simp [XPT2046_Average]
            · cases heq
          · injection heq with heq1
            subst heq1
            simp [XPT2046_Average]
  · intro hp hf
    simp only [XPT2046_Read]
    rw [if_neg (by simp [hp]), if_pos hf]
    constructor
    · split <;> simp
    · intro hceil
      rw [if_pos hceil]
      exact ⟨rfl, rfl⟩

/-- Witness for the C2 theorem: in the tracking state with reference
(100, 100) and invalid_count 0, one variance-gate failure leaves
invalid_count = 1. -/
theorem invalid_count_policy_witness :
    (XPT2046_Read sTracking envNoise (0, 0)).1.invalid_count = 1 := by
  have h := ((invalid_count_policy sTracking envNoise (0, 0)
    (by decide) (by decide)).2 (by decide) (by decide)).1
  exact h.trans (by decide)

/-- C4 counterexample: trace — accept (100, 100), then two jump rejections
at (200, 200) leaving invalid_count = 2.  The next jump rejection reaches
the ceiling, and instead of clearing the reference point and reporting no
touch, XPT2046_Read clears the smoothing history, resets invalid_count and
ACCEPTS the jumped sample immediately: it returns true with (200, 200) and
stores (200, 200) as the new reference point. -/
theorem jump_ceiling_accepts_current_sample :
    sJump3.invalid_count = 2 ∧
    (XPT2046_Read sJump3 envFar (0, 0)).2.1 = true ∧
    (XPT2046_Read sJump3 envFar (0, 0)).1.last_valid_x = 200 ∧
    (XPT2046_Read sJump3 envFar (0, 0)).1.last_valid_y = 200 ∧
    (XPT2046_Read sJump3 envFar (0, 0)).1.invalid_count = 0 ∧
    (XPT2046_Read sJump3 envFar (0, 0)).1.avg_count = 1 := by decide

/-- C4 (amended): when a jump rejection makes invalid_count reach the
ceiling, the smoothing history and invalid_count are cleared and the
CURRENT sample is accepted immediately as a fresh touch-down: read returns
true with the new calibrated point smoothed over a single-entry history,
and that point (not a cleared marker) becomes the reference — so samples
are not rejected indefinitely against the stale reference. -/
theorem jump_ceiling_fresh_touchdown (s : TouchState) (env : TouchEnv)
    (xy : Int × Int)
    (h1 : 0 ≤ s.last_valid_x) (h2 : 0 ≤ s.last_valid_y)
    (hp : XPT2046_IsPressed env = true)
    (hf : (XPT2046_ReadFiltered env).1 = true)
    (hceil : 3 ≤ (s.invalid_count + 1) % 256) :
    let c := XPT2046_ApplyCalibration s.calibration s.screen_width
               s.screen_height (XPT2046_ReadFiltered env).2.1
               (XPT2046_ReadFiltered env).2.2
    80 * 80 < (c.1 - s.last_valid_x) * (c.1 - s.last_valid_x) +
              (c.2 - s.last_valid_y) * (c.2 - s.last_valid_y) →
    XPT2046_Read s env xy =
      ({ s with
          avg_buf_x := c.1 :: List.replicate 9 0
          avg_buf_y := c.2 :: List.replicate 9 0
          avg_count := 1
          invalid_count := 0
          last_valid_x := c.1
          last_valid_y := c.2 }, true, (c.1, c.2)) := by
  intro c hjump
  simp only [XPT2046_Read]
  rw [if_neg (by simp [hp]), if_neg (by simp [hf]),
    if_pos ⟨h1, h2⟩, if_pos hjump, if_pos hceil]
  simp only [XPT2046_Average, List.take_replicate]
  simp [Int.tdiv_one]

/-- Witness for the C4 theorem: the trace state sJump3 (reference
(100, 100), invalid_count 2) together with the far batch realises all
hypotheses, and the read accepts (200, 200) with a fresh one-entry
history. -/
theorem jump_ceiling_fresh_touchdown_witness :
    XPT2046_Read sJump3 envFar (5, 6) =
      ({ sJump3 with
          avg_buf_x := 200 :: List.replicate 9 0
          avg_buf_y := 200 :: List.replicate 9 0
          avg_count := 1
          invalid_count := 0
          last_valid_x := 200
          last_valid_y := 200 }, true, (200, 200)) := by
  have h := jump_ceiling_fresh_touchdown sJump3 envFar (5, 6)
    (by decide) (by decide) (by decide) (by decide) (by decide) (by decide)
  exact h.trans (by decide)

/-- C5: with a stored reference point, the jump boundary is exclusive —
a new calibrated point at squared distance exactly 80 * 80 from the
reference is accepted (read returns true), while squared distance
80 * 80 + 1 is rejected and, below the reset ceiling, read reports no
touch that cycle. -/
theorem jump_boundary_exclusive (s : TouchState) (env : TouchEnv)
    (xy : Int × Int)
    (h1 : 0 ≤ s.last_valid_x) (h2 : 0 ≤ s.last_valid_y)
    (hp : XPT2046_IsPressed env = true)
    (hf : (XPT2046_ReadFiltered env).1 = true) :
    let c := XPT2046_ApplyCalibration s.calibration s.screen_width
               s.screen_height (XPT2046_ReadFiltered env).2.1
               (XPT2046_ReadFiltered env).2.2
    let dsq := (c.1 - s.last_valid_x) * (c.1 - s.last_valid_x) +
               (c.2 - s.last_valid_y) * (c.2 - s.last_valid_y)
    (dsq = 80 * 80 → (XPT2046_Read s env xy).2.1 = true) ∧
    (dsq = 80 * 80 + 1 → (s.invalid_count + 1) % 256 < 3 →
      (XPT2046_Read s env xy).2.1 = false) := by
  intro c dsq
  constructor
  · intro hd
    simp only [XPT2046_Read]
    rw [if_neg (by simp [hp]), if_neg (by simp [hf]), if_pos ⟨h1, h2⟩,
      if_neg (by rw [show ((XPT2046_ApplyCalibration s.calibration
        s.screen_width s.screen_height (XPT2046_ReadFiltered env).2.1
        (XPT2046_ReadFiltered env).2.2).1 - s.last_valid_x) *
        ((XPT2046_ApplyCalibration s.calibration s.screen_width
          s.screen_height (XPT2046_ReadFiltered env).2.1
          (XPT2046_ReadFiltered env).2.2).1 - s.last_valid_x) +
        ((XPT2046_ApplyCalibration s.calibration s.screen_width
          s.screen_height (XPT2046_ReadFiltered env).2.1
          (XPT2046_ReadFiltered env).2.2).2 - s.last_valid_y) *
        ((XPT2046_ApplyCalibration s.calibration s.screen_width
          s.screen_height (XPT2046_ReadFiltered env).2.1
          (XPT2046_ReadFiltered env).2.2).2 - s.last_valid_y) =
        80 * 80 from hd]; omega)]
  · intro hd hic
    simp only [XPT2046_Read]
    rw [if_neg (by simp [hp]), if_neg (by simp [hf]), if_pos ⟨h1, h2⟩,
      if_pos (by rw [show ((XPT2046_ApplyCalibration s.calibration
        s.screen_width s.screen_height (XPT2046_ReadFiltered env).2.1
        (XPT2046_ReadFiltered env).2.2).1 - s.last_valid_x) *
        ((XPT2046_ApplyCalibration s.calibration s.screen_width
          s.screen_height (XPT2046_ReadFiltered env).2.1
          (XPT2046_ReadFiltered env).2.2).1 - s.last_valid_x) +
        ((XPT2046_ApplyCalibration s.calibration s.screen_width
          s.screen_height (XPT2046_ReadFiltered env).2.1
          (XPT2046_ReadFiltered env).2.2).2 - s.last_valid_y) *
        ((XPT2046_ApplyCalibration s.calibration s.screen_width
          s.screen_height (XPT2046_ReadFiltered env).2.1
          (XPT2046_ReadFiltered env).2.2).2 - s.last_valid_y) =
        80 * 80 + 1 from hd]; omega),
      if_neg (by omega)]

/-- Witness for the C5 theorem: reference (100, 100); the batch mapping to
(180, 100) sits at squared distance exactly 6400 and is accepted, the batch
mapping to (180, 101) sits at 6401 and is rejected. -/
theorem jump_boundary_exclusive_witness :
    (XPT2046_Read sTracking envDist6400 (0, 0)).2.1 = true ∧
    (XPT2046_Read sTracking envDist6401 (0, 0)).2.1 = false := by
  constructor
  · exact (jump_boundary_exclusive sTracking envDist6400 (0, 0)
      (by decide) (by decide) (by decide) (by decide)).1 (by decide)
  · exact (jump_boundary_exclusive sTracking envDist6401 (0, 0)
      (by decide) (by decide) (by decide) (by decide)).2 (by decide) (by decide)

/-- C9: the pressure gate returns false whenever the first decoded plate
reading is below 50; otherwise it reports touched iff the plate difference
exceeds the threshold 500.  In particular, with plates decoding to
(100, 150) the difference 50 is below the threshold: XPT2046_IsTouched
returns false and XPT2046_Read reports no touch from any state. -/
theorem pressure_gate_spec :
    (∀ env : TouchEnv, shr3 (toInt16 env.z1) < 50 →
      XPT2046_IsPressed env = false) ∧
    (∀ env : TouchEnv, 50 ≤ shr3 (toInt16 env.z1) →
      (XPT2046_IsPressed env = true ↔
        500 < shr3 (toInt16 env.z2) - shr3 (toInt16 env.z1))) ∧
    XPT2046_IsTouched envNoTouch = false ∧
    ∀ (s : TouchState) (xy : Int × Int),
      (XPT2046_Read s envNoTouch xy).2.1 = false := by
  refine ⟨?_, ?_, by decide, ?_⟩
  · intro env hlow
    simp [XPT2046_IsPressed, if_pos hlow]
  · intro env hhigh
    simp [XPT2046_IsPressed, if_neg (not_lt.mpr hhigh)]
  · intro s xy
    simp only [XPT2046_Read]
    rw [if_pos (by decide)]

/-- Witness for the C9 theorem: plates (20, 500) are rejected by the
minimum-z1 guard; plates (100, 150) fail the threshold comparison, and the
read from the default state reports no touch. -/
theorem pressure_gate_spec_witness :
    XPT2046_IsPressed envLowZ1 = false ∧
    XPT2046_IsPressed envNoTouch ≠ true ∧
    (XPT2046_Read defaultState envNoTouch (3, 4)).2.1 = false := by
  refine ⟨pressure_gate_spec.1 envLowZ1 (by decide), ?_,
    pressure_gate_spec.2.2.2 defaultState (3, 4)⟩
  intro htrue
  exact absurd ((pressure_gate_spec.2.1 envNoTouch (by decide)).mp htrue)
    (by decide)

/-- C10: whenever XPT2046_Read returns false — no pressure, unreliable
batch, or a below-ceiling jump rejection — it does not write through the
caller output pointers: the caller coordinate values are returned
unchanged. -/
theorem read_preserves_output_on_failure (s : TouchState) (env : TouchEnv)
    (xy : Int × Int) (h : (XPT2046_Read s env xy).2.1 = false) :
    (XPT2046_Read s env xy).2.2 = xy := by
  revert h
  simp only [XPT2046_Read]
  split
  · intro _; rfl
  · split
    · split
      · intro _; rfl
      · intro _; rfl
    · split
      · intro _; rfl
      · intro h; simp at h

/-- Witness for the C10 theorem: a no-touch read from the default state
leaves the caller coordinates (5, 7) unchanged. -/
theorem read_preserves_output_on_failure_witness :
    (XPT2046_Read defaultState envNoTouch (5, 7)).2.2 = (5, 7) :=
  read_preserves_output_on_failure defaultState envNoTouch (5, 7) (by decide)

/-- Output range of one calibration axis: for a valid 12-bit profile axis
and a positive dimension within int16 range, the result lies in [0, dim)
for EVERY input value. -/
theorem calibrateAxis_bounds (mn mx dim v : Int)
    (h0 : 0 ≤ mn) (h1 : mn < mx) (h2 : mx ≤ 4095)
    (hd0 : 0 < dim) (hd : dim ≤ 32767) :
    0 ≤ calibrateAxis mn mx dim v ∧ calibrateAxis mn mx dim v < dim := by
  simp only [calibrateAxis]
  set v1 := if v < mn then mn else v with hv1
  set v2 := if v1 > mx then mx else v1 with hv2
  have h_2 : mn ≤ v2 ∧ v2 ≤ mx := by
    rw [hv2, hv1]
    split_ifs <;> omega
  have h_3 : toInt16 (v2 - mn) = v2 - mn := by
    unfold toInt16
    omega
  rw [h_3]
  have ha0 : 0 ≤ v2 - mn := by omega
  have ha4 : v2 - mn ≤ 4095 := by omega
  have hA : toUInt32 (v2 - mn) = v2 - mn := by
    unfold toUInt32
    omega
  rw [hA]
  have hprodle : (v2 - mn) * dim ≤ 4095 * 32767 :=
    mul_le_mul ha4 hd (le_of_lt hd0) (by norm_num)
  have hprod0 : 0 ≤ (v2 - mn) * dim := mul_nonneg ha0 (le_of_lt hd0)
  have hP : toUInt32 ((v2 - mn) * dim) = (v2 - mn) * dim := by
    unfold toUInt32
    omega
  rw [hP]
  have hR : toUInt32 (mx - mn) = mx - mn := by
    unfold toUInt32
    omega
  rw [hR]
  have hq0 : 0 ≤ (v2 - mn) * dim / (mx - mn) :=
    Int.ediv_nonneg hprod0 (by omega)
  have hqw : (v2 - mn) * dim / (mx - mn) ≤ dim := by
    have hstep : (v2 - mn) * dim ≤ (mx - mn) * dim :=
      mul_le_mul_of_nonneg_right (by omega) (le_of_lt hd0)
    calc (v2 - mn) * dim / (mx - mn)
        ≤ (mx - mn) * dim / (mx - mn) := Int.ediv_le_ediv (by omega) hstep
      _ = dim := Int.mul_ediv_cancel_left dim (by omega)
  have hq16 : toInt16 ((v2 - mn) * dim / (mx - mn)) =
      (v2 - mn) * dim / (mx - mn) := by
    unfold toInt16
    omega
  rw [hq16]
  have hd16 : toInt16 dim = dim := by
    unfold toInt16
    omega
  have hd116 : toInt16 (dim - 1) = dim - 1 := by
    unfold toInt16
    omega
  rw [hd16, hd116]
  split_ifs <;> omega

/-- Endpoint behaviour of one calibration axis: the raw minimum maps to
pixel 0 and the raw maximum maps to pixel dim - 1. -/
theorem calibrateAxis_endpoints (mn mx dim : Int)
    (h0 : 0 ≤ mn) (h1 : mn < mx) (h2 : mx ≤ 4095)
    (hd0 : 0 < dim) (hd : dim ≤ 32767) :
    calibrateAxis mn mx dim mn = 0 ∧ calibrateAxis mn mx dim mx = dim - 1 := by
  have hd16 : toInt16 dim = dim := by
    unfold toInt16
    omega
  have hd116 : toInt16 (dim - 1) = dim - 1 := by
    unfold toInt16
    omega
  constructor
  · simp only [calibrateAxis]
    rw [if_neg (by omega : ¬ mn < mn), if_neg (by omega : ¬ mn > mx),
      show mn - mn = 0 by omega,
      show toInt16 0 = 0 by unfold toInt16; omega,
      show toUInt32 0 = 0 by unfold toUInt32; omega, zero_mul,
      show toUInt32 0 = 0 by unfold toUInt32; omega, Int.zero_ediv,
      show toInt16 0 = 0 by unfold toInt16; omega,
      if_neg (by omega : ¬ (0 : Int) < 0), hd16,
      if_neg (by omega : ¬ (0 : Int) ≥ dim)]
  · simp only [calibrateAxis]
    rw [if_neg (by omega : ¬ mx < mn), if_neg (by omega : ¬ mx > mx)]
    have h_3 : toInt16 (mx - mn) = mx - mn := by
      unfold toInt16
      omega
    rw [h_3]
    have hA : toUInt32 (mx - mn) = mx - mn := by
      unfold toUInt32
      omega
    rw [hA]
    have hprodle : (mx - mn) * dim ≤ 4095 * 32767 :=
      mul_le_mul (by omega) hd (le_of_lt hd0) (by norm_num)
    have hprod0 : 0 ≤ (mx - mn) * dim := mul_nonneg (by omega) (le_of_lt hd0)
    have hP : toUInt32 ((mx - mn) * dim) = (mx - mn) * dim := by
      unfold toUInt32
      omega
    rw [hP, Int.mul_ediv_cancel_left dim (by omega), hd16,
      if_neg (by omega : ¬ dim < 0), if_pos (le_refl dim), hd116]

/-- C7: under the shipped no-swap/no-invert configuration, a valid 12-bit
profile and positive screen dimensions within int16 range, the calibration
mapper sends (x_min, y_min) to (0, 0) and (x_max, y_max) to
(width - 1, height - 1), and for EVERY raw input — out-of-range values
included — the output lies in [0, width) x [0, height). -/
theorem applyCalibration_spec (cal : Calibration) (w h : Int)
    (hx0 : 0 ≤ cal.x_min) (hx1 : cal.x_min < cal.x_max) (hx2 : cal.x_max ≤ 4095)
    (hy0 : 0 ≤ cal.y_min) (hy1 : cal.y_min < cal.y_max) (hy2 : cal.y_max ≤ 4095)
    (hw0 : 0 < w) (hw1 : w ≤ 32767) (hh0 : 0 < h) (hh1 : h ≤ 32767) :
    XPT2046_ApplyCalibration cal w h cal.x_min cal.y_min = (0, 0) ∧
    XPT2046_ApplyCalibration cal w h cal.x_max cal.y_max = (w - 1, h - 1) ∧
    ∀ x y : Int,
      0 ≤ (XPT2046_ApplyCalibration cal w h x y).1 ∧
      (XPT2046_ApplyCalibration cal w h x y).1 < w ∧
      0 ≤ (XPT2046_ApplyCalibration cal w h x y).2 ∧
      (XPT2046_ApplyCalibration cal w h x y).2 < h := by
  obtain ⟨hxa, hxb⟩ := calibrateAxis_endpoints cal.x_min cal.x_max w hx0 hx1 hx2 hw0 hw1
  obtain ⟨hya, hyb⟩ := calibrateAxis_endpoints cal.y_min cal.y_max h hy0 hy1 hy2 hh0 hh1
  refine ⟨?_, ?_, ?_⟩
  · simp [XPT2046_ApplyCalibration, hxa, hya]
  · simp [XPT2046_ApplyCalibration, hxb, hyb]
  · intro x y
    obtain ⟨hx3, hx4⟩ := calibrateAxis_bounds cal.x_min cal.x_max w x hx0 hx1 hx2 hw0 hw1
    obtain ⟨hy3, hy4⟩ := calibrateAxis_bounds cal.y_min cal.y_max h y hy0 hy1 hy2 hh0 hh1
    exact ⟨hx3, hx4, hy3, hy4⟩

/-- Witness for the C7 theorem at the default profile and the 240x320
screen: the corners map to (0, 0) and (239, 319), and the out-of-range raw
input (5000, -12) still lands inside the screen. -/
theorem applyCalibration_spec_witness :
    XPT2046_ApplyCalibration defaultState.calibration 240 320 160 215 = (0, 0) ∧
    XPT2046_ApplyCalibration defaultState.calibration 240 320 3870 3910 =
      (239, 319) ∧
    (0 ≤ (XPT2046_ApplyCalibration defaultState.calibration 240 320 5000 (-12)).1 ∧
     (XPT2046_ApplyCalibration defaultState.calibration 240 320 5000 (-12)).1 < 240 ∧
     0 ≤ (XPT2046_ApplyCalibration defaultState.calibration 240 320 5000 (-12)).2 ∧
     (XPT2046_ApplyCalibration defaultState.calibration 240 320 5000 (-12)).2 < 320) := by
  have hspec := applyCalibration_spec defaultState.calibration 240 320
    (by decide) (by decide) (by decide) (by decide) (by decide) (by decide)
    (by decide) (by decide) (by decide) (by decide)
  exact ⟨hspec.1, hspec.2.1, hspec.2.2 5000 (-12)⟩

end XPT2046
